import Mathlib

/-
Verification of the golang-kmod wrapper (src/kmod/kmod.go), a Go binding over
libkmod.  The native library is modelled as an environment `NativeEnv` that
fixes, for one run, what every native call returns; each wrapper operation is
embedded as a pure function of that environment returning its Go result
together with the trace of native calls it issued.
-/

namespace GolangKmod

/-- A module handle.  The Go `Module` struct (defined in module.go, which only
the spec describes) wraps a native `kmod_module` pointer; here a handle is
identified by the module name the native library reports for it. -/
structure Module where
  name : String
  deriving DecidableEq, Repr

/-- Modelled from the spec: `Module.Name` returns the module's name as known to
the native library (spec section 4.2); taken from module.go, absent from src. -/
def Module.Name (m : Module) : String := m.name

/-- One native libkmod call as issued by the wrapper, with the arguments the
wrapper passes.  `probeInsert` records the flags, the extra-options string and
whether each of the three remaining pointer arguments was non-null. -/
inductive NativeCall where
  | kmodNew
  | loadResources
  | unloadResources
  | unref
  | newFromLoaded
  | newFromLookup (aliasName : String)
  | newFromName (name : String)
  | probeInsert (m : Module) (flags : Int) (extraOptions : Option String)
      (runInstall printAction data : Bool)
  | removeModule (m : Module) (flags : Int)
  deriving DecidableEq, Repr

/-- A trace of native calls, in the order the wrapper issued them. -/
abbrev Trace := List NativeCall

/-- An ordered sequence of module handles, as returned to the Go caller. -/
abbrev ModuleSeq := List Module

/-- The native library's behaviour for one run: what each native call returns.
Negative `Int` statuses are errno-style error codes, as in libkmod. -/
structure NativeEnv where
  /-- whether `kmod_new(nil, nil)` returns a non-null context -/
  kmodNewOk : Bool
  /-- status returned by `kmod_load_resources` -/
  loadResourcesRet : Int
  /-- status returned by `kmod_module_new_from_loaded` -/
  newFromLoadedRet : Int
  /-- content of the native list produced by `kmod_module_new_from_loaded` -/
  loadedList : ModuleSeq
  /-- status returned by `kmod_module_new_from_lookup` for each alias -/
  lookupRet : String → Int
  /-- content of the native list produced by lookup for each alias -/
  lookupList : String → ModuleSeq
  /-- status returned by `kmod_module_new_from_name` for each name -/
  newFromNameRet : String → Int
  /-- module handle produced by `kmod_module_new_from_name` for each name -/
  newFromNameMod : String → Module
  /-- status returned by `kmod_module_probe_insert_module` for each module -/
  probeInsertRet : Module → Int
  /-- status returned by `kmod_module_remove_module` for each module -/
  removeRet : Module → Int
  /-- `strerror`: render an errno value as a human-readable string -/
  strerror : Int → String

/-- Embeds `goStrerror` (kmod.go:72): pass the code to `C.strerror` and
convert the resulting C string to a Go string. -/
def goStrerror (env : NativeEnv) (err : Int) : String := env.strerror err

/-- Embeds the Go `Kmod` struct (kmod.go:79): it holds one field `ctx`, a
possibly-nil pointer to the native `kmod_ctx`. -/
structure Kmod where
  ctx : Option Unit
  deriving DecidableEq, Repr

/-- Embeds `(*Kmod).cleanup` (kmod.go:107): if `ctx` is non-nil, call
`kmod_unload_resources` then `kmod_unref` and set `ctx` to nil; otherwise do
nothing.  Returns the updated receiver and the native calls issued. -/
def Kmod.cleanup (kmod : Kmod) : Kmod × Trace :=
  if kmod.ctx.isSome then
    (⟨none⟩, [.unloadResources, .unref])
  else
    (kmod, [])

/-- Embeds `NewKmod` (kmod.go:88): `kmod_new(nil, nil)`, error if null;
then `kmod_load_resources`, error (with rendered strerror of the negated
status) if negative; otherwise wrap the context.  No release of the created
context happens on the load-failure path, exactly as in the source. -/
def NewKmod (env : NativeEnv) : Except String Kmod × Trace :=
  if env.kmodNewOk = false then
    (.error "Kmod: unable to create the kmod_ctx, leaving now", [.kmodNew])
  else if env.loadResourcesRet < 0 then
    (.error ("Kmod: unable to prepare the kmod_ctx, leaving now - "
        ++ goStrerror env (-env.loadResourcesRet)),
      [.kmodNew, .loadResources])
  else
    (.ok ⟨some ()⟩, [.kmodNew, .loadResources])

/-- Modelled from the spec: the list adapter of module.go (absent from src)
traverses the native singly-linked list front to back, taking a reference to
each entry's module and accumulating them in native iteration order
(spec section 4.3). -/
def adaptList : ModuleSeq → ModuleSeq
  | [] => []
  | m :: rest => m :: adaptList rest

/-- Modelled from the spec: the `moduleList` value built by `newModuleList`
in module.go (absent from src); it exposes the adapted modules. -/
structure ModuleList where
  modules : ModuleSeq
  deriving DecidableEq, Repr

/-- Modelled from the spec: `newModuleList` of module.go (absent from src)
adapts a native list into a `ModuleList`, then frees the list scaffolding. -/
def newModuleList (l : ModuleSeq) : ModuleList := ⟨adaptList l⟩

/-- Modelled from the spec: `newModule` of module.go (absent from src) wraps a
native module handle into a Go `Module`. -/
def newModule (m : Module) : Module := m

/-- Embeds `(*Kmod).List` (kmod.go:118): `kmod_module_new_from_loaded`; on a
negative status return the rendered error (the Go format string ends in a
newline), otherwise adapt the native list and return its modules. -/
def Kmod.List (env : NativeEnv) (kmod : Kmod) : Except String ModuleSeq × Trace :=
  if env.newFromLoadedRet < 0 then
    (.error ("Kmod: couldn't get the list of modules: "
        ++ goStrerror env (-env.newFromLoadedRet) ++ "\n"),
      [.newFromLoaded])
  else
    (.ok (newModuleList env.loadedList).modules, [.newFromLoaded])

/-- Embeds `(*Kmod).Lookup` (kmod.go:133): `kmod_module_new_from_lookup` on
the alias; on a negative status return the rendered error naming the alias,
otherwise adapt the native list and return its modules. -/
def Kmod.Lookup (env : NativeEnv) (kmod : Kmod) (aliasName : String) :
    Except String ModuleSeq × Trace :=
  if env.lookupRet aliasName < 0 then
    (.error ("Kmod : Failed to lookup " ++ aliasName ++ " - "
        ++ goStrerror env (-env.lookupRet aliasName)),
      [.newFromLookup aliasName])
  else
    (.ok (newModuleList (env.lookupList aliasName)).modules, [.newFromLookup aliasName])

/-- Embeds `(*Kmod).ModuleFromName` (kmod.go:152): `kmod_module_new_from_name`;
on a negative status return the rendered error naming the module, otherwise
wrap the single resulting handle. -/
def Kmod.ModuleFromName (env : NativeEnv) (kmod : Kmod) (name : String) :
    Except String Module × Trace :=
  if env.newFromNameRet name < 0 then
    (.error ("Kmod : Could not get module " ++ name ++ " - "
        ++ goStrerror env (-env.newFromNameRet name)),
      [.newFromName name])
  else
    (.ok (newModule (env.newFromNameMod name)), [.newFromName name])

/-- The exact probe-and-insert call `Insert` issues for a module (kmod.go:183):
flags 0, null extra options, and null install, print-action and data args. -/
def probeCall (m : Module) : NativeCall :=
  .probeInsert m 0 none false false false

/-- The exact remove call `Remove` issues for a module (kmod.go:209): flags 0. -/
def removeCall (m : Module) : NativeCall :=
  .removeModule m 0

/-- Embeds the loop of `Insert` (kmod.go:182): probe-insert each module in
order; on the first negative status return the error naming that module with
the rendered strerror of the negated status. -/
def insertLoop (env : NativeEnv) : ModuleSeq → Except String Unit × Trace
  | [] => (.ok (), [])
  | m :: rest =>
    if env.probeInsertRet m < 0 then
      (.error ("Could not insert module " ++ m.Name ++ " : "
          ++ goStrerror env (-env.probeInsertRet m)),
        [probeCall m])
    else
      let r := insertLoop env rest
      (r.1, probeCall m :: r.2)

/-- Embeds `(*Kmod).Insert` (kmod.go:174): resolve the name via `Lookup`,
propagating its error, then run the probe-insert loop over the results. -/
def Kmod.Insert (env : NativeEnv) (kmod : Kmod) (name : String) :
    Except String Unit × Trace :=
  match Kmod.Lookup env kmod name with
  | (.error e, t) => (.error e, t)
  | (.ok modules, t) =>
    let r := insertLoop env modules
    (r.1, t ++ r.2)

/-- Embeds the loop of `Remove` (kmod.go:208): remove each module in order
with flags 0; on the first negative status return the error naming that module
with the rendered strerror of the negated status. -/
def removeLoop (env : NativeEnv) : ModuleSeq → Except String Unit × Trace
  | [] => (.ok (), [])
  | m :: rest =>
    if env.removeRet m < 0 then
      (.error ("Could not remove module " ++ m.Name ++ " : "
          ++ goStrerror env (-env.removeRet m)),
        [removeCall m])
    else
      let r := removeLoop env rest
      (r.1, removeCall m :: r.2)

/-- Embeds `(*Kmod).Remove` (kmod.go:200): resolve the name via `Lookup`,
propagating its error, then run the remove loop over the results. -/
def Kmod.Remove (env : NativeEnv) (kmod : Kmod) (name : String) :
    Except String Unit × Trace :=
  match Kmod.Lookup env kmod name with
  | (.error e, t) => (.error e, t)
  | (.ok modules, t) =>
    let r := removeLoop env modules
    (r.1, t ++ r.2)

/-- Whether a native call is a remove. -/
def NativeCall.isRemoveCall : NativeCall → Bool
  | .removeModule _ _ => true
  | _ => false

/-- Whether a native call is a probe-and-insert. -/
def NativeCall.isProbeCall : NativeCall → Bool
  | .probeInsert _ _ _ _ _ _ => true
  | _ => false

/-- Spec-side characterization of the Insert loop, in the spec's words: probe
the modules in order, fail fast at the first one whose probe status is
negative, keep the modules already probed (no rollback). -/
def insertOutcome (env : NativeEnv) (l : ModuleSeq) : Except String Unit × Trace :=
  match l.dropWhile (fun m => decide (0 ≤ env.probeInsertRet m)) with
  | [] => (.ok (), l.map probeCall)
  | bad :: _ =>
    (.error ("Could not insert module " ++ bad.Name ++ " : "
        ++ goStrerror env (-env.probeInsertRet bad)),
      (l.takeWhile (fun m => decide (0 ≤ env.probeInsertRet m))).map probeCall
        ++ [probeCall bad])

/-- Spec-side characterization of the Remove loop, in the spec's words: remove
the modules in order, fail fast at the first one whose remove status is
negative, keep the removals already applied (no rollback). -/
def removeOutcome (env : NativeEnv) (l : ModuleSeq) : Except String Unit × Trace :=
  match l.dropWhile (fun m => decide (0 ≤ env.removeRet m)) with
  | [] => (.ok (), l.map removeCall)
  | bad :: _ =>
    (.error ("Could not remove module " ++ bad.Name ++ " : "
        ++ goStrerror env (-env.removeRet bad)),
      (l.takeWhile (fun m => decide (0 ≤ env.removeRet m))).map removeCall
        ++ [removeCall bad])

/-- A concrete module handle used in witnesses. -/
def modA : Module := ⟨"pcspkr"⟩

/-- A second concrete module handle used in witnesses. -/
def modB : Module := ⟨"rtl2832"⟩

/-- A concrete environment where every native call succeeds. -/
def envOk : NativeEnv where
  kmodNewOk := true
  loadResourcesRet := 0
  newFromLoadedRet := 0
  loadedList := [modA]
  lookupRet := fun _ => 0
  lookupList := fun _ => [modA]
  newFromNameRet := fun _ => 0
  newFromNameMod := fun _ => modA
  probeInsertRet := fun _ => 0
  removeRet := fun _ => 0
  strerror := fun _ => "Success"

/-- A concrete environment where `kmod_load_resources` fails with -1. -/
def envLoadFail : NativeEnv :=
  { envOk with loadResourcesRet := -1, strerror := fun _ => "Operation not permitted" }

/-- A concrete environment where every native query and mutation fails. -/
def envFail : NativeEnv :=
  { envOk with
    newFromLoadedRet := -2
    lookupRet := fun _ => -2
    newFromNameRet := fun _ => -2
    probeInsertRet := fun _ => -19
    removeRet := fun _ => -19
    strerror := fun _ => "No such device" }

/-- A concrete environment where lookup succeeds with an empty list. -/
def envEmptyLookup : NativeEnv :=
  { envOk with lookupList := fun _ => [] }

/-- A concrete environment where lookup yields two modules and the probe and
remove calls fail on the second one only. -/
def envBatchFail : NativeEnv :=
  { envOk with
    lookupList := fun _ => [modA, modB]
    probeInsertRet := fun m => if m = modB then -19 else 0
    removeRet := fun m => if m = modB then -19 else 0
    strerror := fun _ => "No such device" }

theorem adaptList_eq (l : ModuleSeq) : adaptList l = l := by
  induction l with
  | nil => rfl
  | cons m rest ih => simp [adaptList, ih]

theorem Lookup_trace (env : NativeEnv) (kmod : Kmod) (aliasName : String) :
    (Kmod.Lookup env kmod aliasName).2 = [.newFromLookup aliasName] := by
  unfold Kmod.Lookup
  split <;> rfl

theorem insertLoop_eq_outcome (env : NativeEnv) (l : ModuleSeq) :
    insertLoop env l = insertOutcome env l := by
  induction l with
  | nil => rfl
  | cons m rest ih =>
    by_cases h : env.probeInsertRet m < 0
    · have hd : decide (0 ≤ env.probeInsertRet m) = false := by
        simp [not_le.mpr h]
      simp [insertLoop, insertOutcome, List.dropWhile, List.takeWhile, h, hd]
    · have h0 : 0 ≤ env.probeInsertRet m := not_lt.mp h
      have hd : decide (0 ≤ env.probeInsertRet m) = true := by simp [h0]
      simp only [insertLoop, insertOutcome, List.dropWhile, List.takeWhile, hd, if_neg h,
        cond_true, ih]
      cases hdw : rest.dropWhile (fun m => decide (0 ≤ env.probeInsertRet m)) with
      | nil => simp [insertOutcome, hdw]
      | cons bad tail => simp [insertOutcome, hdw]

theorem removeLoop_eq_outcome (env : NativeEnv) (l : ModuleSeq) :
    removeLoop env l = removeOutcome env l := by
  induction l with
  | nil => rfl
  | cons m rest ih =>
    by_cases h : env.removeRet m < 0
    · have hd : decide (0 ≤ env.removeRet m) = false := by
        simp [not_le.mpr h]
      simp [removeLoop, removeOutcome, List.dropWhile, List.takeWhile, h, hd]
    · have h0 : 0 ≤ env.removeRet m := not_lt.mp h
      have hd : decide (0 ≤ env.removeRet m) = true := by simp [h0]
      simp only [removeLoop, removeOutcome, List.dropWhile, List.takeWhile, hd, if_neg h,
        cond_true, ih]
      cases hdw : rest.dropWhile (fun m => decide (0 ≤ env.removeRet m)) with
      | nil => simp [removeOutcome, hdw]
      | cons bad tail => simp [removeOutcome, hdw]

theorem insertLoop_no_remove (env : NativeEnv) (l : ModuleSeq) :
    ∀ c ∈ (insertLoop env l).2, c.isRemoveCall = false := by
  induction l with
  | nil => intro c hc; cases hc
  | cons m rest ih =>
    intro c hc
    simp only [insertLoop] at hc
    split at hc
    · simp only [List.mem_singleton] at hc
      subst hc
      rfl
    · simp only [List.mem_cons] at hc
      cases hc with
      | inl h => subst h; rfl
      | inr h => exact ih c h

theorem removeLoop_no_probe (env : NativeEnv) (l : ModuleSeq) :
    ∀ c ∈ (removeLoop env l).2, c.isProbeCall = false := by
  induction l with
  | nil => intro c hc; cases hc
  | cons m rest ih =>
    intro c hc
    simp only [removeLoop] at hc
    split at hc
    · simp only [List.mem_singleton] at hc
      subst hc
      rfl
    · simp only [List.mem_cons] at hc
      cases hc with
      | inl h => subst h; rfl
      | inr h => exact ih c h

/-- C1: `Insert` first resolves the name via `Lookup`, propagating its error;
on success it probes each resulting module in sequence order with flags 0 and
null extra-options, install, print-action and data arguments, fails fast at
the first module whose native probe status is negative with an error naming
that module and carrying the rendered native error string, and performs no
compensating removal: its trace contains no remove call. -/
theorem Insert_lookup_failfast_no_rollback (env : NativeEnv) (kmod : Kmod) (name : String) :
    Kmod.Insert env kmod name =
      (match Kmod.Lookup env kmod name with
       | (.error e, t) => (.error e, t)
       | (.ok l, t) => ((insertOutcome env l).1, t ++ (insertOutcome env l).2)) ∧
    ((Kmod.Insert env kmod name).2.all fun c => ! c.isRemoveCall) = true := by
  constructor
  · unfold Kmod.Insert
    cases hlk : Kmod.Lookup env kmod name with
    | mk r t => cases r <;> simp [insertLoop_eq_outcome]
  · unfold Kmod.Insert
    cases hlk : Kmod.Lookup env kmod name with
    | mk r t =>
      have ht : t = [.newFromLookup name] := by
        have h := Lookup_trace env kmod name
        rw [hlk] at h
        exact h
      cases r with
      | error e => simp [ht, NativeCall.isRemoveCall]
      | ok l =>
        simp [ht, NativeCall.isRemoveCall]
        exact fun c hc => insertLoop_no_remove env l c hc

/-- C2: `cleanup` is idempotent: on a live context the first call issues
unload-resources and release-session exactly once and sets `ctx` to nil, the
result of any `cleanup` call has a nil `ctx`, and a second `cleanup` is a
no-op issuing no native calls. -/
theorem cleanup_idempotent (kmod : Kmod) :
    (kmod.ctx.isSome = true →
      kmod.cleanup = (⟨none⟩, [.unloadResources, .unref])) ∧
    (kmod.cleanup.1).ctx = none ∧
    (kmod.cleanup.1).cleanup = (kmod.cleanup.1, []) := by
  cases hc : kmod.ctx with
  | none =>
    have hk : kmod = ⟨none⟩ := by cases kmod; simp_all
    simp [hk, Kmod.cleanup]
  | some u =>
    have hk : kmod = ⟨some ()⟩ := by cases kmod; simp_all
    simp [hk, Kmod.cleanup]

/-- Witness for C2: both conclusions at a live context. -/
theorem cleanup_idempotent_witness :
    (Kmod.mk (some ())).cleanup = (⟨none⟩, [.unloadResources, .unref]) ∧
    ((Kmod.mk (some ())).cleanup.1).cleanup = ((Kmod.mk (some ())).cleanup.1, []) :=
  ⟨(cleanup_idempotent ⟨some ()⟩).1 (by decide),
    (cleanup_idempotent ⟨some ()⟩).2.2⟩

/-- C3 exhibits the divergence: in an environment where session creation
succeeds and the resource-loading step fails, `NewKmod` returns the error but
its native-call trace contains neither a release-session (`kmod_unref`) nor an
unload-resources call: the already-created native session is not released on
this exit path. -/
theorem NewKmod_no_unref_on_load_failure :
    (NewKmod envLoadFail).1 =
      .error "Kmod: unable to prepare the kmod_ctx, leaving now - Operation not permitted" ∧
    NativeCall.kmodNew ∈ (NewKmod envLoadFail).2 ∧
    NativeCall.unref ∉ (NewKmod envLoadFail).2 ∧
    NativeCall.unloadResources ∉ (NewKmod envLoadFail).2 := by
  refine ⟨?_, ?_, ?_, ?_⟩ <;>
    simp [NewKmod, envLoadFail, envOk, goStrerror]

/-- C4: `NewKmod` returns the initialization error exactly when native session
creation returns null, returns the resource-load error carrying the rendered
native error string when the resource-loading step returns a negative status,
and otherwise returns a usable context; there is no other failure case. -/
theorem NewKmod_error_cases (env : NativeEnv) :
    (env.kmodNewOk = false →
      NewKmod env = (.error "Kmod: unable to create the kmod_ctx, leaving now", [.kmodNew])) ∧
    (env.kmodNewOk = true → env.loadResourcesRet < 0 →
      NewKmod env = (.error ("Kmod: unable to prepare the kmod_ctx, leaving now - "
          ++ goStrerror env (-env.loadResourcesRet)), [.kmodNew, .loadResources])) ∧
    (env.kmodNewOk = true → 0 ≤ env.loadResourcesRet →
      NewKmod env = (.ok ⟨some ()⟩, [.kmodNew, .loadResources])) := by
  refine ⟨fun h0 => ?_, fun h0 h1 => ?_, fun h0 h1 => ?_⟩
  · simp [NewKmod, h0]
  · simp [NewKmod, h0, h1]
  · simp [NewKmod, h0, not_lt.mpr h1]

/-- Witness for C4: the success case at a concrete all-success environment. -/
theorem NewKmod_error_cases_witness :
    envOk.kmodNewOk = true ∧ 0 ≤ envOk.loadResourcesRet ∧
    NewKmod envOk = (.ok ⟨some ()⟩, [.kmodNew, .loadResources]) :=
  ⟨rfl, by decide, (NewKmod_error_cases envOk).2.2 rfl (by decide)⟩

/-- C5: `Lookup` returns an error exactly when the native lookup status is
negative; any non-negative status is success regardless of the length of the
resulting list, so zero matches with a non-negative status yields the empty
sequence rather than an error. -/
theorem Lookup_error_iff_negative_status (env : NativeEnv) (kmod : Kmod) (aliasName : String) :
    (env.lookupRet aliasName < 0 →
      Kmod.Lookup env kmod aliasName =
        (.error ("Kmod : Failed to lookup " ++ aliasName ++ " - "
            ++ goStrerror env (-env.lookupRet aliasName)),
          [.newFromLookup aliasName])) ∧
    (0 ≤ env.lookupRet aliasName →
      Kmod.Lookup env kmod aliasName =
        (.ok (env.lookupList aliasName), [.newFromLookup aliasName])) ∧
    (0 ≤ env.lookupRet aliasName → env.lookupList aliasName = [] →
      (Kmod.Lookup env kmod aliasName).1 = .ok []) := by
  refine ⟨fun h0 => ?_, fun h0 => ?_, fun h0 h1 => ?_⟩
  · simp [Kmod.Lookup, h0]
  · simp [Kmod.Lookup, not_lt.mpr h0, newModuleList, adaptList_eq]
  · simp [Kmod.Lookup, not_lt.mpr h0, h1, newModuleList, adaptList_eq]

/-- Witness for C5: at a concrete environment whose lookup succeeds with zero
matches, the result is the empty sequence, not an error. -/
theorem Lookup_error_iff_negative_status_witness :
    (Kmod.Lookup envEmptyLookup ⟨some ()⟩ "pcspkr").1 = .ok [] :=
  (Lookup_error_iff_negative_status envEmptyLookup ⟨some ()⟩ "pcspkr").2.2 (by decide) rfl

/-- C6: `Remove` first resolves the name via `Lookup`, propagating its error;
on success it removes each resulting module in sequence order with flags 0,
fails fast at the first module whose native remove status is negative with an
error naming that module and carrying the rendered native error string, and
performs no rollback: its trace contains no probe-and-insert call. -/
theorem Remove_lookup_failfast_no_rollback (env : NativeEnv) (kmod : Kmod) (name : String) :
    Kmod.Remove env kmod name =
      (match Kmod.Lookup env kmod name with
       | (.error e, t) => (.error e, t)
       | (.ok l, t) => ((removeOutcome env l).1, t ++ (removeOutcome env l).2)) ∧
    ((Kmod.Remove env kmod name).2.all fun c => ! c.isProbeCall) = true := by
  constructor
  · unfold Kmod.Remove
    cases hlk : Kmod.Lookup env kmod name with
    | mk r t => cases r <;> simp [removeLoop_eq_outcome]
  · unfold Kmod.Remove
    cases hlk : Kmod.Lookup env kmod name with
    | mk r t =>
      have ht : t = [.newFromLookup name] := by
        have h := Lookup_trace env kmod name
        rw [hlk] at h
        exact h
      cases r with
      | error e => simp [ht, NativeCall.isProbeCall]
      | ok l =>
        simp [ht, NativeCall.isProbeCall]
        exact fun c hc => removeLoop_no_probe env l c hc

/-- C7: `ModuleFromName` returns an error, never a module handle, exactly when
the native exact-name resolution status is negative, and returns exactly one
wrapped module handle otherwise. -/
theorem ModuleFromName_error_iff_negative (env : NativeEnv) (kmod : Kmod) (name : String) :
    (env.newFromNameRet name < 0 →
      Kmod.ModuleFromName env kmod name =
        (.error ("Kmod : Could not get module " ++ name ++ " - "
            ++ goStrerror env (-env.newFromNameRet name)),
          [.newFromName name])) ∧
    (0 ≤ env.newFromNameRet name →
      Kmod.ModuleFromName env kmod name =
        (.ok (newModule (env.newFromNameMod name)), [.newFromName name])) := by
  refine ⟨fun h0 => ?_, fun h0 => ?_⟩ <;>
    simp [Kmod.ModuleFromName, h0, not_lt.mpr h0]

/-- Witness for C7: resolving a nonexistent name in an environment where the
native call reports a negative status yields the not-found error, not a
handle. -/
theorem ModuleFromName_error_iff_negative_witness :
    Kmod.ModuleFromName envFail ⟨some ()⟩ "nonexistent-xyz" =
      (.error "Kmod : Could not get module nonexistent-xyz - No such device",
        [.newFromName "nonexistent-xyz"]) :=
  (ModuleFromName_error_iff_negative envFail ⟨some ()⟩ "nonexistent-xyz").1 (by decide)

/-- C8: every negative native status is converted at its call site into an
error whose message carries the strerror rendering of the negated status and,
for probe and remove failures, the module name; in each case the failing call
is the last call of the trace, so the status is neither swallowed nor retried. -/
theorem native_errors_rendered_at_call_site (env : NativeEnv) (kmod : Kmod) (s : String) :
    (env.kmodNewOk = true → env.loadResourcesRet < 0 →
      NewKmod env = (.error ("Kmod: unable to prepare the kmod_ctx, leaving now - "
          ++ goStrerror env (-env.loadResourcesRet)), [.kmodNew, .loadResources])) ∧
    (env.newFromLoadedRet < 0 →
      Kmod.List env kmod = (.error ("Kmod: couldn't get the list of modules: "
          ++ goStrerror env (-env.newFromLoadedRet) ++ "\n"), [.newFromLoaded])) ∧
    (env.lookupRet s < 0 →
      Kmod.Lookup env kmod s = (.error ("Kmod : Failed to lookup " ++ s ++ " - "
          ++ goStrerror env (-env.lookupRet s)), [.newFromLookup s])) ∧
    (env.newFromNameRet s < 0 →
      Kmod.ModuleFromName env kmod s = (.error ("Kmod : Could not get module " ++ s ++ " - "
          ++ goStrerror env (-env.newFromNameRet s)), [.newFromName s])) ∧
    (∀ bad tail, 0 ≤ env.lookupRet s →
      (env.lookupList s).dropWhile (fun m => decide (0 ≤ env.probeInsertRet m)) = bad :: tail →
      Kmod.Insert env kmod s =
        (.error ("Could not insert module " ++ bad.Name ++ " : "
            ++ goStrerror env (-env.probeInsertRet bad)),
          .newFromLookup s ::
            ((env.lookupList s).takeWhile (fun m => decide (0 ≤ env.probeInsertRet m))).map
              probeCall ++ [probeCall bad])) ∧
    (∀ bad tail, 0 ≤ env.lookupRet s →
      (env.lookupList s).dropWhile (fun m => decide (0 ≤ env.removeRet m)) = bad :: tail →
      Kmod.Remove env kmod s =
        (.error ("Could not remove module " ++ bad.Name ++ " : "
            ++ goStrerror env (-env.removeRet bad)),
          .newFromLookup s ::
            ((env.lookupList s).takeWhile (fun m => decide (0 ≤ env.removeRet m))).map
              removeCall ++ [removeCall bad])) := by
  refine ⟨fun h0 h1 => ?_, fun h0 => ?_, fun h0 => ?_, fun h0 => ?_,
    fun bad tail h0 hdw => ?_, fun bad tail h0 hdw => ?_⟩
  · simp [NewKmod, h0, h1]
  · simp [Kmod.List, h0]
  · simp [Kmod.Lookup, h0]
  · simp [Kmod.ModuleFromName, h0]
  · have hlk : Kmod.Lookup env kmod s = (.ok (env.lookupList s), [.newFromLookup s]) := by
      simp [Kmod.Lookup, not_lt.mpr h0, newModuleList, adaptList_eq]
    simp [Kmod.Insert, hlk, insertLoop_eq_outcome, insertOutcome, hdw]
  · have hlk : Kmod.Lookup env kmod s = (.ok (env.lookupList s), [.newFromLookup s]) := by
      simp [Kmod.Lookup, not_lt.mpr h0, newModuleList, adaptList_eq]
    simp [Kmod.Remove, hlk, removeLoop_eq_outcome, removeOutcome, hdw]

/-- Witness for C8: in a concrete environment where lookup yields two modules
and the probe fails on the second, Insert renders exactly one error naming
that module and the trace stops at the failing probe. -/
theorem native_errors_rendered_at_call_site_witness :
    Kmod.Insert envBatchFail ⟨some ()⟩ "rtl" =
      (.error "Could not insert module rtl2832 : No such device",
        [.newFromLookup "rtl", probeCall modA, probeCall modB]) := by
  have h := (native_errors_rendered_at_call_site envBatchFail ⟨some ()⟩ "rtl").2.2.2.2.1
    modB [] (by decide) (by decide)
  rw [h]
  rfl

/-- C9: `List` returns an error exactly when the native enumeration status is
negative; on a non-negative status it returns the adapted native list in
native iteration order, the empty native list yielding the empty sequence. -/
theorem List_error_iff_negative (env : NativeEnv) (kmod : Kmod) :
    (env.newFromLoadedRet < 0 →
      Kmod.List env kmod = (.error ("Kmod: couldn't get the list of modules: "
          ++ goStrerror env (-env.newFromLoadedRet) ++ "\n"), [.newFromLoaded])) ∧
    (0 ≤ env.newFromLoadedRet →
      Kmod.List env kmod = (.ok env.loadedList, [.newFromLoaded])) ∧
    (0 ≤ env.newFromLoadedRet → env.loadedList = [] →
      (Kmod.List env kmod).1 = .ok []) := by
  refine ⟨fun h0 => ?_, fun h0 => ?_, fun h0 h1 => ?_⟩
  · simp [Kmod.List, h0]
  · simp [Kmod.List, not_lt.mpr h0, newModuleList, adaptList_eq]
  · simp [Kmod.List, not_lt.mpr h0, h1, newModuleList, adaptList_eq]

/-- Witness for C9: the success case at a concrete environment with one loaded
module. -/
theorem List_error_iff_negative_witness :
    Kmod.List envOk ⟨some ()⟩ = (.ok [modA], [.newFromLoaded]) :=
  (List_error_iff_negative envOk ⟨some ()⟩).2.1 (by decide)

/-- C10: when `Lookup` succeeds with zero modules, both `Insert` and `Remove`
return success and their traces consist of the lookup call alone: no native
probe-insert or remove call is issued. -/
theorem Insert_Remove_noop_on_empty_lookup (env : NativeEnv) (kmod : Kmod) (name : String)
    (h0 : 0 ≤ env.lookupRet name) (h1 : env.lookupList name = []) :
    Kmod.Insert env kmod name = (.ok (), [.newFromLookup name]) ∧
    Kmod.Remove env kmod name = (.ok (), [.newFromLookup name]) := by
  have hlk : Kmod.Lookup env kmod name = (.ok [], [.newFromLookup name]) := by
    simp [Kmod.Lookup, not_lt.mpr h0, h1, newModuleList, adaptList_eq]
  constructor
  · simp [Kmod.Insert, hlk, insertLoop]
  · simp [Kmod.Remove, hlk, removeLoop]

/-- Witness for C10: a concrete environment whose lookup succeeds with zero
matches. -/
theorem Insert_Remove_noop_on_empty_lookup_witness :
    Kmod.Insert envEmptyLookup ⟨some ()⟩ "bogus" = (.ok (), [.newFromLookup "bogus"]) ∧
    Kmod.Remove envEmptyLookup ⟨some ()⟩ "bogus" = (.ok (), [.newFromLookup "bogus"]) :=
  Insert_Remove_noop_on_empty_lookup envEmptyLookup ⟨some ()⟩ "bogus" (by decide) rfl

end GolangKmod
